import Mathlib

/-!
# Verification of the G–Bc plane stability-analysis engine

A shallow embedding of the numerical core of the interactive power-system
stability-analysis component (`interactive_stability_analysis.jsx`): the
admittance aggregation, the self-excitation boundary circle, the voltage-ratio
contour circles, the point classifier, the eigenvalue solver and the transient
envelope simulator.  JavaScript numbers are modelled as exact real numbers `ℝ`;
`Math.sqrt`, `Math.exp`, `Math.cos`, `Math.min`, `Math.max` and `Math.abs`
become `Real.sqrt`, `Real.exp`, `Real.cos`, `min`, `max` and `|·|`.  Boolean
results of real-number comparisons are modelled as propositions.
-/

open scoped Classical

/-- The machine/network constants, `params` in the source:
`{Xd, Xd_prime, XL, Td0_prime, Tq0_prime}`. -/
structure ParameterSet where
  Xd : ℝ
  Xd_prime : ℝ
  XL : ℝ
  Td0_prime : ℝ
  Tq0_prime : ℝ

/-- The initial `useState` parameter values of both variants of the source. -/
def defaultParams : ParameterSet :=
  { Xd := 1.8, Xd_prime := 0.3, XL := 5.0, Td0_prime := 5.0, Tq0_prime := 1.0 }

/-- A circle in the (G, Bc) plane, `{G_center, Bc_center, R}` in the source. -/
structure GBcCircle where
  G_center : ℝ
  Bc_center : ℝ
  R : ℝ

/-- The self-excitation stability boundary circle, `stabilityCircle` in the
source: `Bc_center = 0.5*(1/(XL+Xd_prime) + 1/(XL+Xd))`,
`R = (Xd - Xd_prime)/(2*(XL+Xd_prime)*(XL+Xd))`, `G_center = 0`. -/
noncomputable def stabilityCircle (p : ParameterSet) : GBcCircle :=
  { G_center := 0
    Bc_center := 0.5 * (1 / (p.XL + p.Xd_prime) + 1 / (p.XL + p.Xd))
    R := (p.Xd - p.Xd_prime) / (2 * (p.XL + p.Xd_prime) * (p.XL + p.Xd)) }

/-- The iso-voltage-ratio contour circle, `calculateKCircle` in the source:
center `(0, 1/X_total)`, radius `1/(k*X_total)` with `X_total = XL + Xd_prime`. -/
noncomputable def calculateKCircle (p : ParameterSet) (k : ℝ) : GBcCircle :=
  { G_center := 0
    Bc_center := 1 / (p.XL + p.Xd_prime)
    R := 1 / (k * (p.XL + p.Xd_prime)) }

/-- The stability classifier, `checkStability` of the first source variant:
`Math.sqrt(g*g + (bc - Bc_center)**2) > R` against `stabilityCircle`. -/
noncomputable def checkStability (p : ParameterSet) (g bc : ℝ) : Prop :=
  Real.sqrt (g * g + (bc - (stabilityCircle p).Bc_center) ^ 2) > (stabilityCircle p).R

/-- The stability classifier of the second source variant, which computes the
distance as `Math.sqrt((g - G_center)**2 + (bc - Bc_center)**2)`. -/
noncomputable def checkStability2 (p : ParameterSet) (g bc : ℝ) : Prop :=
  Real.sqrt ((g - (stabilityCircle p).G_center) ^ 2 +
    (bc - (stabilityCircle p).Bc_center) ^ 2) > (stabilityCircle p).R

/-- The denominator of the voltage-ratio solver, the local `denom` of
`calculateK` in the source: `Math.sqrt((1 - bc*X)**2 + (g*X)**2)`. -/
noncomputable def kDenom (p : ParameterSet) (g bc : ℝ) : ℝ :=
  Real.sqrt ((1 - bc * (p.XL + p.Xd_prime)) ^ 2 + (g * (p.XL + p.Xd_prime)) ^ 2)

/-- The voltage-ratio solver, `calculateK` in the source:
`denom < 1e-10 ? 999 : 1 / denom`. -/
noncomputable def calculateK (p : ParameterSet) (g bc : ℝ) : ℝ :=
  if kDenom p g bc < 1e-10 then 999 else 1 / kDenom p g bc

/-- The eigenvalue-solver denominator, the local `denom` of
`calculateEigenvalues` in the source: `(1 - bc*X)**2 + (g*X)**2` with
`X = XL + Xd_prime`. -/
noncomputable def eigDenom (p : ParameterSet) (g bc : ℝ) : ℝ :=
  (1 - bc * (p.XL + p.Xd_prime)) ^ 2 + (g * (p.XL + p.Xd_prime)) ^ 2

/-- The local `Yr = g / denom` of `calculateEigenvalues`. -/
noncomputable def eigYr (p : ParameterSet) (g bc : ℝ) : ℝ :=
  g / eigDenom p g bc

/-- The local `Yi = (bc - (g*g + bc*bc)*X) / denom` of `calculateEigenvalues`. -/
noncomputable def eigYi (p : ParameterSet) (g bc : ℝ) : ℝ :=
  (bc - (g * g + bc * bc) * (p.XL + p.Xd_prime)) / eigDenom p g bc

/-- The quadratic leading coefficient `a = Td0_prime * Tq0_prime`. -/
noncomputable def eigA (p : ParameterSet) : ℝ :=
  p.Td0_prime * p.Tq0_prime

/-- The quadratic coefficient `b = -(Td0_prime + Tq0_prime) * (Yi*Q - 1)`,
where `Q = Xd - Xd_prime`. -/
noncomputable def eigB (p : ParameterSet) (g bc : ℝ) : ℝ :=
  -(p.Td0_prime + p.Tq0_prime) * (eigYi p g bc * (p.Xd - p.Xd_prime) - 1)

/-- The quadratic coefficient `c = (Yi*Q - 1)**2 + Yr**2 * Q * Q`. -/
noncomputable def eigC (p : ParameterSet) (g bc : ℝ) : ℝ :=
  (eigYi p g bc * (p.Xd - p.Xd_prime) - 1) ^ 2 +
    eigYr p g bc ^ 2 * (p.Xd - p.Xd_prime) * (p.Xd - p.Xd_prime)

/-- The discriminant `disc = b*b - 4*a*c`. -/
noncomputable def eigDisc (p : ParameterSet) (g bc : ℝ) : ℝ :=
  eigB p g bc * eigB p g bc - 4 * eigA p * eigC p g bc

/-- The root `s1 = (-b + Math.sqrt(disc)) / (2*a)` of the real-root branch. -/
noncomputable def eigS1 (p : ParameterSet) (g bc : ℝ) : ℝ :=
  (-eigB p g bc + Real.sqrt (eigDisc p g bc)) / (2 * eigA p)

/-- The root `s2 = (-b - Math.sqrt(disc)) / (2*a)` of the real-root branch. -/
noncomputable def eigS2 (p : ParameterSet) (g bc : ℝ) : ℝ :=
  (-eigB p g bc - Real.sqrt (eigDisc p g bc)) / (2 * eigA p)

/-- The record returned by `calculateEigenvalues` in the source.  The boolean
fields `stable` and `oscillatory` are modelled as propositions; in the
degenerate branch the source omits `oscillatory`, which reads back as the falsy
`undefined`, modelled as `False`. -/
structure EigenResult where
  real : ℝ
  imag : ℝ
  stable : Prop
  oscillatory : Prop

/-- The eigenvalue solver, `calculateEigenvalues` in the source: degenerate
result when `denom < 1e-10`; otherwise the roots of `a s² + b s + c = 0`,
exposed as `max s1 s2` (real branch, `disc >= 0`) or as the complex pair
`-b/(2a) ± j sqrt(-disc)/(2a)` (oscillatory branch, `disc < 0`). -/
noncomputable def calculateEigenvalues (p : ParameterSet) (g bc : ℝ) : EigenResult :=
  if eigDenom p g bc < 1e-10 then
    { real := 0, imag := 0, stable := False, oscillatory := False }
  else if 0 ≤ eigDisc p g bc then
    { real := max (eigS1 p g bc) (eigS2 p g bc)
      imag := 0
      stable := eigS1 p g bc < 0 ∧ eigS2 p g bc < 0
      oscillatory := False }
  else
    { real := -eigB p g bc / (2 * eigA p)
      imag := Real.sqrt (-eigDisc p g bc) / (2 * eigA p)
      stable := -eigB p g bc / (2 * eigA p) < 0
      oscillatory := True }

/-- One sample `{t, VL, stable}` pushed by `runSimulation` in the source. -/
structure TrajectorySample where
  t : ℝ
  VL : ℝ
  stable : Prop

/-- The pre-clamp voltage of one simulation step of `runSimulation`: nominal
`1.0` up to the disturbance at `t = 0.5`, afterwards the synthetic envelope
shaped by the eigenvalues (decaying `k*(1 + 0.2*decay*osc)` when stable,
capped growth `k*min(exp(|real|*tau*0.5), 4)` when unstable). -/
noncomputable def simRawVoltage (p : ParameterSet) (g bc : ℝ) (t : ℝ) : ℝ :=
  if t > 0.5 then
    let tau := t - 0.5
    if checkStability p g bc then
      let decay := Real.exp ((calculateEigenvalues p g bc).real * tau)
      let osc := if (calculateEigenvalues p g bc).oscillatory then
          Real.cos ((calculateEigenvalues p g bc).imag * tau) else 1
      calculateK p g bc * (1 + 0.2 * decay * osc)
    else
      calculateK p g bc *
        min (Real.exp (|(calculateEigenvalues p g bc).real| * tau * 0.5)) 4
  else 1.0

/-- The transient simulator, `runSimulation` in the source, over the idealized
exact time grid `t = i*0.02`, `i = 0, …, 400` (the source iterates
`for (t = 0; t <= 8; t += 0.02)`).  Each pushed sample clamps the voltage as
`Math.min(Math.max(VL, 0.4), 2.5)`. -/
noncomputable def runSimulation (p : ParameterSet) (g bc : ℝ) : List TrajectorySample :=
  (List.range 401).map (fun (i : ℕ) =>
    { t := (i : ℝ) * 0.02
      VL := min (max (simRawVoltage p g bc ((i : ℝ) * 0.02)) 0.4) 2.5
      stable := checkStability p g bc })

/-- The component magnitudes and reference voltage, `systemConfig` in the
source: three active-power loads, three reactive sources and `V`. -/
structure SystemConfiguration where
  P_load1 : ℝ
  P_load2 : ℝ
  P_load3 : ℝ
  Qc_cap1 : ℝ
  Qc_cap2 : ℝ
  Qc_cable : ℝ
  V : ℝ

/-- The connection switches, `connected` in the source. -/
structure Connected where
  load1 : Bool
  load2 : Bool
  load3 : Bool
  cap1 : Bool
  cap2 : Bool
  cable : Bool

/-- The admittance aggregation of the source's `useMemo` block: sum the
connected load powers into `P` and the connected capacitor powers into `Qc`,
then `G = P/V²`, `Bc = Qc/V²` with `V² = V*V`. -/
noncomputable def aggregate (cfg : SystemConfiguration) (conn : Connected) : ℝ × ℝ :=
  let V2 := cfg.V * cfg.V
  let P := (if conn.load1 then cfg.P_load1 else 0) +
    (if conn.load2 then cfg.P_load2 else 0) +
    (if conn.load3 then cfg.P_load3 else 0)
  let Qc := (if conn.cap1 then cfg.Qc_cap1 else 0) +
    (if conn.cap2 then cfg.Qc_cap2 else 0) +
    (if conn.cable then cfg.Qc_cable else 0)
  (P / V2, Qc / V2)

/-- Helper: the scenario-C point (0.02, 0.18) lies strictly outside the
default boundary circle, measured on squared distances. -/
theorem scenarioC_sq_outside :
    (stabilityCircle defaultParams).R ^ 2 <
      0.02 * 0.02 + (0.18 - (stabilityCircle defaultParams).Bc_center) ^ 2 := by
  norm_num [stabilityCircle, defaultParams]

/-- Helper: the classifier marks the scenario-C point (0.02, 0.18) stable. -/
theorem scenarioC_stable : checkStability defaultParams 0.02 0.18 := by
  unfold checkStability
  rw [gt_iff_lt, Real.lt_sqrt (by norm_num [stabilityCircle, defaultParams])]
  exact scenarioC_sq_outside

/-- C3: for every ParameterSet with `Xd > Xd_prime > 0` and `XL > 0`, the
stability boundary model returns exactly the circle with `centerG = 0`,
`centerBc = 0.5*(1/(XL+Xd_prime) + 1/(XL+Xd))` and
`radius = (Xd - Xd_prime)/(2*(XL+Xd_prime)*(XL+Xd))`. -/
theorem stabilityCircle_spec (p : ParameterSet)
    (h1 : p.Xd_prime < p.Xd) (h2 : 0 < p.Xd_prime) (h3 : 0 < p.XL) :
    (stabilityCircle p).G_center = 0 ∧
    (stabilityCircle p).Bc_center = 0.5 * (1 / (p.XL + p.Xd_prime) + 1 / (p.XL + p.Xd)) ∧
    (stabilityCircle p).R = (p.Xd - p.Xd_prime) / (2 * (p.XL + p.Xd_prime) * (p.XL + p.Xd)) :=
  ⟨rfl, rfl, rfl⟩

/-- Witness for C3 at the default parameter set. -/
theorem stabilityCircle_spec_witness :
    (stabilityCircle defaultParams).G_center = 0 ∧
    (stabilityCircle defaultParams).Bc_center =
      0.5 * (1 / (defaultParams.XL + defaultParams.Xd_prime) +
        1 / (defaultParams.XL + defaultParams.Xd)) ∧
    (stabilityCircle defaultParams).R =
      (defaultParams.Xd - defaultParams.Xd_prime) /
        (2 * (defaultParams.XL + defaultParams.Xd_prime) *
          (defaultParams.XL + defaultParams.Xd)) :=
  stabilityCircle_spec defaultParams (by norm_num [defaultParams])
    (by norm_num [defaultParams]) (by norm_num [defaultParams])

/-- C7 counterexample: at the default parameters the boundary circle has
`centerBc ≈ 0.16787` and `radius ≈ 0.020810`, both more than `5e-3` away from
the claimed values `0.17406` and `0.014174`. -/
theorem stabilityCircle_scenarioA_refuted :
    5e-3 < |(stabilityCircle defaultParams).Bc_center - 0.17406| ∧
    5e-3 < |(stabilityCircle defaultParams).R - 0.014174| := by
  constructor
  · rw [lt_abs]
    right
    norm_num [stabilityCircle, defaultParams]
  · rw [lt_abs]
    left
    norm_num [stabilityCircle, defaultParams]

/-- C7 amended: at the default parameters the boundary circle has
`centerBc = 0.167869…` and `radius = 0.0208102…`, each within `1e-6` of the
stated five-figure decimals. -/
theorem stabilityCircle_scenarioA_amended :
    |(stabilityCircle defaultParams).Bc_center - 0.167869| ≤ 1e-6 ∧
    |(stabilityCircle defaultParams).R - 0.020810| ≤ 1e-6 := by
  constructor <;>
  · rw [abs_le]
    constructor <;> norm_num [stabilityCircle, defaultParams]

/-- C8 counterexample: it is false that the classifier marks the point
`(G = 0.02, Bc = 0.18)` unstable at the default parameters. -/
theorem checkStability_scenarioC_refuted :
    ¬ ¬ checkStability defaultParams 0.02 0.18 :=
  fun h => h scenarioC_stable

/-- C8 amended: at the default parameters the point `(G = 0.02, Bc = 0.18)`
lies strictly outside the boundary circle, so `checkStability` returns
stable. -/
theorem checkStability_scenarioC_amended :
    checkStability defaultParams 0.02 0.18 :=
  scenarioC_stable

/-- C9: both classifier variants return stable exactly when the Euclidean
distance from the point to the boundary-circle center strictly exceeds the
radius, and a point exactly on the boundary is classified unstable. -/
theorem checkStability_dist_spec (p : ParameterSet) (g bc : ℝ) :
    (checkStability p g bc ↔
      Real.sqrt ((g - (stabilityCircle p).G_center) ^ 2 +
        (bc - (stabilityCircle p).Bc_center) ^ 2) > (stabilityCircle p).R) ∧
    (checkStability2 p g bc ↔
      Real.sqrt ((g - (stabilityCircle p).G_center) ^ 2 +
        (bc - (stabilityCircle p).Bc_center) ^ 2) > (stabilityCircle p).R) ∧
    (Real.sqrt ((g - (stabilityCircle p).G_center) ^ 2 +
        (bc - (stabilityCircle p).Bc_center) ^ 2) = (stabilityCircle p).R →
      ¬ checkStability p g bc) := by
  have h0 : (stabilityCircle p).G_center = 0 := rfl
  have harg : (g - (stabilityCircle p).G_center) ^ 2 +
      (bc - (stabilityCircle p).Bc_center) ^ 2 =
      g * g + (bc - (stabilityCircle p).Bc_center) ^ 2 := by
    rw [h0]; ring
  refine ⟨?_, ?_, ?_⟩
  · unfold checkStability
    rw [harg]
  · unfold checkStability2
    rw [harg]
  · intro heq
    unfold checkStability
    rw [harg] at heq
    intro hcon
    rw [heq] at hcon
    exact lt_irrefl _ hcon

/-- Witness for C9: a point exactly on the default boundary circle
(`G = 0`, `Bc = centerBc + R = 680/3604 = 170/901`) is classified unstable. -/
theorem checkStability_dist_spec_witness :
    ¬ checkStability defaultParams 0 (170 / 901) :=
  (checkStability_dist_spec defaultParams 0 (170 / 901)).2.2 (by
    have harg : ((0 : ℝ) - (stabilityCircle defaultParams).G_center) ^ 2 +
        ((170 / 901 : ℝ) - (stabilityCircle defaultParams).Bc_center) ^ 2 =
        ((75 : ℝ) / 3604) ^ 2 := by
      norm_num [stabilityCircle, defaultParams]
    rw [harg, Real.sqrt_sq (by norm_num)]
    norm_num [stabilityCircle, defaultParams])

/-- C10: for nonnegative component magnitudes and a strictly positive
reference voltage, the aggregated operating point satisfies `G ≥ 0` and
`Bc ≥ 0` for every subset of connected components. -/
theorem aggregate_nonneg (cfg : SystemConfiguration) (conn : Connected)
    (h1 : 0 ≤ cfg.P_load1) (h2 : 0 ≤ cfg.P_load2) (h3 : 0 ≤ cfg.P_load3)
    (h4 : 0 ≤ cfg.Qc_cap1) (h5 : 0 ≤ cfg.Qc_cap2) (h6 : 0 ≤ cfg.Qc_cable)
    (hV : 0 < cfg.V) :
    0 ≤ (aggregate cfg conn).1 ∧ 0 ≤ (aggregate cfg conn).2 := by
  have hV2 : 0 ≤ cfg.V * cfg.V := mul_nonneg hV.le hV.le
  unfold aggregate
  refine ⟨div_nonneg ?_ hV2, div_nonneg ?_ hV2⟩ <;>
  · refine add_nonneg (add_nonneg ?_ ?_) ?_ <;>
    · split
      · assumption
      · exact le_rfl

/-- Witness for C10 at the source's default configuration with all six
components connected. -/
theorem aggregate_nonneg_witness :
    0 ≤ (aggregate ⟨0.05, 0.03, 0.02, 0.04, 0.02, 0.015, 1.0⟩
      ⟨true, true, true, true, true, true⟩).1 ∧
    0 ≤ (aggregate ⟨0.05, 0.03, 0.02, 0.04, 0.02, 0.015, 1.0⟩
      ⟨true, true, true, true, true, true⟩).2 :=
  aggregate_nonneg _ _ (by norm_num) (by norm_num) (by norm_num) (by norm_num)
    (by norm_num) (by norm_num) (by norm_num)

/-- C5: the voltage-ratio solver returns the sentinel `999` when its
denominator is below `1e-10` and `1/denom` otherwise (it is total and never
fails), and at the exact degenerate point `G = 0`, `Bc = 1/5.3` of the default
parameters (`X = 5.3`) it returns `999`. -/
theorem calculateK_spec (p : ParameterSet) (g bc : ℝ) :
    (kDenom p g bc < 1e-10 → calculateK p g bc = 999) ∧
    (1e-10 ≤ kDenom p g bc → calculateK p g bc = 1 / kDenom p g bc) ∧
    calculateK defaultParams 0 (1 / 5.3) = 999 := by
  refine ⟨?_, ?_, ?_⟩
  · intro h
    unfold calculateK
    rw [if_pos h]
  · intro h
    unfold calculateK
    rw [if_neg (not_lt.mpr h)]
  · have harg : (1 - 1 / 5.3 * (defaultParams.XL + defaultParams.Xd_prime)) ^ 2 +
        ((0 : ℝ) * (defaultParams.XL + defaultParams.Xd_prime)) ^ 2 = 0 := by
      norm_num [defaultParams]
    have hden : kDenom defaultParams 0 (1 / 5.3) = 0 := by
      unfold kDenom
      rw [harg, Real.sqrt_zero]
    unfold calculateK
    rw [hden, if_pos (by norm_num)]

/-- Witness for C5: the degenerate branch fires at `(0, 1/5.3)` and the
regular branch fires at the default operating point `(0.1, 0.15)`. -/
theorem calculateK_spec_witness :
    calculateK defaultParams 0 (1 / 5.3) = 999 ∧
    calculateK defaultParams 0.1 0.15 = 1 / kDenom defaultParams 0.1 0.15 := by
  constructor
  · refine (calculateK_spec defaultParams 0 (1 / 5.3)).1 ?_
    have harg : (1 - 1 / 5.3 * (defaultParams.XL + defaultParams.Xd_prime)) ^ 2 +
        ((0 : ℝ) * (defaultParams.XL + defaultParams.Xd_prime)) ^ 2 = 0 := by
      norm_num [defaultParams]
    unfold kDenom
    rw [harg, Real.sqrt_zero]
    norm_num
  · refine (calculateK_spec defaultParams 0.1 0.15).2.1 ?_
    have hlt : (1e-10 : ℝ) < kDenom defaultParams 0.1 0.15 := by
      unfold kDenom
      rw [Real.lt_sqrt (by norm_num)]
      norm_num [defaultParams]
    exact hlt.le

/-- C2: case analysis of the eigenvalue solver.  Below the `1e-10` denominator
threshold it returns the degenerate unstable result `{real: 0, imag: 0,
stable: false}`; otherwise for `disc ≥ 0` it exposes the dominant real root
`max s1 s2`, zero imaginary part, stability iff both roots are negative, and
no oscillation; for `disc < 0` it exposes `-b/(2a)`, the nonnegative imaginary
part `sqrt(-disc)/(2a)`, stability iff the real part is negative, and
oscillation. -/
theorem calculateEigenvalues_spec (p : ParameterSet) (g bc : ℝ)
    (hT1 : 0 < p.Td0_prime) (hT2 : 0 < p.Tq0_prime) :
    (eigDenom p g bc < 1e-10 →
      (calculateEigenvalues p g bc).real = 0 ∧
      (calculateEigenvalues p g bc).imag = 0 ∧
      ¬ (calculateEigenvalues p g bc).stable) ∧
    (1e-10 ≤ eigDenom p g bc →
      (0 ≤ eigDisc p g bc →
        (calculateEigenvalues p g bc).real = max (eigS1 p g bc) (eigS2 p g bc) ∧
        (calculateEigenvalues p g bc).imag = 0 ∧
        ((calculateEigenvalues p g bc).stable ↔
          eigS1 p g bc < 0 ∧ eigS2 p g bc < 0) ∧
        ¬ (calculateEigenvalues p g bc).oscillatory) ∧
      (eigDisc p g bc < 0 →
        (calculateEigenvalues p g bc).real = -eigB p g bc / (2 * eigA p) ∧
        (calculateEigenvalues p g bc).imag =
          Real.sqrt (-eigDisc p g bc) / (2 * eigA p) ∧
        0 ≤ (calculateEigenvalues p g bc).imag ∧
        ((calculateEigenvalues p g bc).stable ↔
          (calculateEigenvalues p g bc).real < 0) ∧
        (calculateEigenvalues p g bc).oscillatory)) := by
  have ha : 0 < eigA p := mul_pos hT1 hT2
  constructor
  · intro h
    have hval : calculateEigenvalues p g bc =
        { real := 0, imag := 0, stable := False, oscillatory := False } := by
      unfold calculateEigenvalues
      rw [if_pos h]
    rw [hval]
    exact ⟨rfl, rfl, not_false⟩
  · intro h
    have hnd : ¬ eigDenom p g bc < 1e-10 := not_lt.mpr h
    constructor
    · intro hdisc
      have hval : calculateEigenvalues p g bc =
          { real := max (eigS1 p g bc) (eigS2 p g bc)
            imag := 0
            stable := eigS1 p g bc < 0 ∧ eigS2 p g bc < 0
            oscillatory := False } := by
        unfold calculateEigenvalues
        rw [if_neg hnd, if_pos hdisc]
      rw [hval]
      exact ⟨rfl, rfl, Iff.rfl, not_false⟩
    · intro hdisc
      have hval : calculateEigenvalues p g bc =
          { real := -eigB p g bc / (2 * eigA p)
            imag := Real.sqrt (-eigDisc p g bc) / (2 * eigA p)
            stable := -eigB p g bc / (2 * eigA p) < 0
            oscillatory := True } := by
        unfold calculateEigenvalues
        rw [if_neg hnd, if_neg (not_le.mpr hdisc)]
      rw [hval]
      refine ⟨rfl, rfl, ?_, Iff.rfl, trivial⟩
      exact div_nonneg (Real.sqrt_nonneg _) (by linarith)

/-- Witness for C2: the degenerate branch at the default parameters and the
singular point `(0, 1/5.3)` yields an unstable result. -/
theorem calculateEigenvalues_spec_witness :
    ¬ (calculateEigenvalues defaultParams 0 (1 / 5.3)).stable :=
  ((calculateEigenvalues_spec defaultParams 0 (1 / 5.3)
      (by norm_num [defaultParams]) (by norm_num [defaultParams])).1
    (by unfold eigDenom; norm_num [defaultParams])).2.2

/-- C6: every sample of the transient simulation has its voltage clamped to
the closed interval `[0.4, 2.5]`, for every operating point and every
parameter set with positive entries, in the pre-disturbance phase as well as
the stable and the unstable branch. -/
theorem runSimulation_voltage_bounds (p : ParameterSet) (g bc : ℝ)
    (h1 : 0 < p.Xd) (h2 : 0 < p.Xd_prime) (h3 : 0 < p.XL)
    (h4 : 0 < p.Td0_prime) (h5 : 0 < p.Tq0_prime) :
    ∀ s ∈ runSimulation p g bc, 0.4 ≤ s.VL ∧ s.VL ≤ 2.5 := by
  intro s hs
  unfold runSimulation at hs
  rw [List.mem_map] at hs
  obtain ⟨i, _, rfl⟩ := hs
  exact ⟨le_min (le_max_right _ _) (by norm_num), min_le_right _ _⟩

/-- Helper: the simulation always emits 401 samples (`t = 0` to `t = 8` in
steps of `0.02`). -/
theorem runSimulation_length (p : ParameterSet) (g bc : ℝ) :
    (runSimulation p g bc).length = 401 := by
  unfold runSimulation
  rw [List.length_map, List.length_range]

/-- Witness for C6: the first sample of the simulation at the default
parameters and the default operating point is within the clamp interval. -/
theorem runSimulation_voltage_bounds_witness :
    0.4 ≤ ((runSimulation defaultParams 0.1 0.15).get
      ⟨0, by rw [runSimulation_length]; norm_num⟩).VL ∧
    ((runSimulation defaultParams 0.1 0.15).get
      ⟨0, by rw [runSimulation_length]; norm_num⟩).VL ≤ 2.5 :=
  runSimulation_voltage_bounds defaultParams 0.1 0.15
    (by norm_num [defaultParams]) (by norm_num [defaultParams])
    (by norm_num [defaultParams]) (by norm_num [defaultParams])
    (by norm_num [defaultParams])
    _ (List.get_mem _ 0 _)

/-- C4: round-trip between the voltage contour model and the voltage ratio
solver.  Every point `(G, Bc) = (G_center + R cos θ, Bc_center + R sin θ)` of
the contour circle `calculateKCircle p k` with `k > 0` that is non-degenerate
(`denom ≥ 1e-10`) satisfies `calculateK p G Bc = k` exactly. -/
theorem voltageContour_roundTrip (p : ParameterSet) (k θ : ℝ)
    (hXL : 0 < p.XL) (hXd : 0 < p.Xd_prime) (hk : 0 < k)
    (hd : 1e-10 ≤ kDenom p
      ((calculateKCircle p k).G_center + (calculateKCircle p k).R * Real.cos θ)
      ((calculateKCircle p k).Bc_center + (calculateKCircle p k).R * Real.sin θ)) :
    calculateK p
      ((calculateKCircle p k).G_center + (calculateKCircle p k).R * Real.cos θ)
      ((calculateKCircle p k).Bc_center + (calculateKCircle p k).R * Real.sin θ) = k := by
  have hX : 0 < p.XL + p.Xd_prime := by linarith
  have hbc : 1 - ((calculateKCircle p k).Bc_center +
      (calculateKCircle p k).R * Real.sin θ) * (p.XL + p.Xd_prime) =
      -Real.sin θ / k := by
    simp only [calculateKCircle]
    field_simp
    ring
  have hg : ((calculateKCircle p k).G_center +
      (calculateKCircle p k).R * Real.cos θ) * (p.XL + p.Xd_prime) =
      Real.cos θ / k := by
    simp only [calculateKCircle]
    field_simp
    ring
  have harg : (1 - ((calculateKCircle p k).Bc_center +
        (calculateKCircle p k).R * Real.sin θ) * (p.XL + p.Xd_prime)) ^ 2 +
      (((calculateKCircle p k).G_center +
        (calculateKCircle p k).R * Real.cos θ) * (p.XL + p.Xd_prime)) ^ 2 =
      (1 / k) ^ 2 := by
    rw [hbc, hg]
    field_simp
  have hden : kDenom p
      ((calculateKCircle p k).G_center + (calculateKCircle p k).R * Real.cos θ)
      ((calculateKCircle p k).Bc_center + (calculateKCircle p k).R * Real.sin θ) =
      1 / k := by
    unfold kDenom
    rw [harg, Real.sqrt_sq (by positivity)]
  unfold calculateK
  rw [hden, if_neg (not_lt.mpr (hden ▸ hd)), one_div_one_div]

/-- Witness for C4 at the default parameters, `k = 1`, `θ = 0`: the contour
point is `(1/5.3, 1/5.3)` and the solver returns `1` on it. -/
theorem voltageContour_roundTrip_witness :
    calculateK defaultParams
      ((calculateKCircle defaultParams 1).G_center +
        (calculateKCircle defaultParams 1).R * Real.cos 0)
      ((calculateKCircle defaultParams 1).Bc_center +
        (calculateKCircle defaultParams 1).R * Real.sin 0) = 1 :=
  voltageContour_roundTrip defaultParams 1 0
    (by norm_num [defaultParams]) (by norm_num [defaultParams]) (by norm_num)
    (by
      have harg : (1 - ((calculateKCircle defaultParams 1).Bc_center +
            (calculateKCircle defaultParams 1).R * Real.sin 0) *
            (defaultParams.XL + defaultParams.Xd_prime)) ^ 2 +
          (((calculateKCircle defaultParams 1).G_center +
            (calculateKCircle defaultParams 1).R * Real.cos 0) *
            (defaultParams.XL + defaultParams.Xd_prime)) ^ 2 = 1 := by
        rw [Real.sin_zero, Real.cos_zero]
        norm_num [calculateKCircle, defaultParams]
      unfold kDenom
      rw [harg, Real.sqrt_one]
      norm_num)

/-- Helper: for a quadratic `a s² + b s + c` with `a > 0` and nonnegative
discriminant, both roots are strictly negative iff `b > 0` and `c > 0`. -/
theorem quad_roots_neg_iff (a b c s1 s2 : ℝ) (ha : 0 < a)
    (hd : 0 ≤ b * b - 4 * a * c)
    (hs1 : s1 = (-b + Real.sqrt (b * b - 4 * a * c)) / (2 * a))
    (hs2 : s2 = (-b - Real.sqrt (b * b - 4 * a * c)) / (2 * a)) :
    (s1 < 0 ∧ s2 < 0) ↔ 0 < b ∧ 0 < c := by
  have h2a : (0 : ℝ) < 2 * a := by linarith
  have hs : 0 ≤ Real.sqrt (b * b - 4 * a * c) := Real.sqrt_nonneg _
  have hsq : Real.sqrt (b * b - 4 * a * c) * Real.sqrt (b * b - 4 * a * c) =
      b * b - 4 * a * c := Real.mul_self_sqrt hd
  constructor
  · rintro ⟨h1, h2⟩
    have hnum1 : -b + Real.sqrt (b * b - 4 * a * c) < 0 := by
      by_contra hcon
      push_neg at hcon
      have hnn := div_nonneg hcon h2a.le
      rw [← hs1] at hnn
      linarith
    have hb : 0 < b := by linarith
    refine ⟨hb, ?_⟩
    have hfac : 0 < (b - Real.sqrt (b * b - 4 * a * c)) *
        (b + Real.sqrt (b * b - 4 * a * c)) :=
      mul_pos (by linarith) (by linarith)
    nlinarith [hfac, hsq, ha]
  · rintro ⟨hb, hc⟩
    have hsb : Real.sqrt (b * b - 4 * a * c) < b :=
      (Real.sqrt_lt' hb).mpr (by nlinarith)
    constructor
    · rw [hs1]
      exact div_neg_of_neg_of_pos (by linarith) h2a
    · rw [hs2]
      exact div_neg_of_neg_of_pos (by linarith) h2a

/-- Helper: above the denominator threshold, the solver's `stable` flag is
equivalent to positivity of both lower quadratic coefficients `b` and `c`. -/
theorem eigen_stable_iff_coeff_pos (p : ParameterSet) (g bc : ℝ)
    (hT1 : 0 < p.Td0_prime) (hT2 : 0 < p.Tq0_prime)
    (hD : 1e-10 ≤ eigDenom p g bc) :
    (calculateEigenvalues p g bc).stable ↔ 0 < eigB p g bc ∧ 0 < eigC p g bc := by
  have ha : 0 < eigA p := mul_pos hT1 hT2
  have hnd : ¬ eigDenom p g bc < 1e-10 := not_lt.mpr hD
  unfold calculateEigenvalues
  rw [if_neg hnd]
  by_cases hdisc : 0 ≤ eigDisc p g bc
  · rw [if_pos hdisc]
    show (eigS1 p g bc < 0 ∧ eigS2 p g bc < 0) ↔ _
    exact quad_roots_neg_iff (eigA p) (eigB p g bc) (eigC p g bc)
      (eigS1 p g bc) (eigS2 p g bc) ha hdisc rfl rfl
  · rw [if_neg hdisc]
    push_neg at hdisc
    show (-eigB p g bc / (2 * eigA p) < 0) ↔ _
    have hd' : eigB p g bc * eigB p g bc - 4 * eigA p * eigC p g bc < 0 := hdisc
    have hc : 0 < eigC p g bc := by
      by_contra hcc
      push_neg at hcc
      nlinarith [mul_self_nonneg (eigB p g bc), mul_nonneg ha.le (neg_nonneg.mpr hcc)]
    have h2a : (0 : ℝ) < 2 * eigA p := by linarith
    constructor
    · intro h
      refine ⟨?_, hc⟩
      by_contra hb
      push_neg at hb
      have hnn : 0 ≤ -eigB p g bc / (2 * eigA p) := div_nonneg (by linarith) h2a.le
      linarith
    · rintro ⟨hb, _⟩
      exact div_neg_of_neg_of_pos (by linarith) h2a

/-- Helper: positivity of both coefficients `b` and `c` is equivalent to
`Yi·Q < 1`, the network-reflected self-excitation criterion. -/
theorem coeff_pos_iff_yiQ_lt_one (p : ParameterSet) (g bc : ℝ)
    (hT1 : 0 < p.Td0_prime) (hT2 : 0 < p.Tq0_prime) :
    (0 < eigB p g bc ∧ 0 < eigC p g bc) ↔
      eigYi p g bc * (p.Xd - p.Xd_prime) < 1 := by
  have hT : 0 < p.Td0_prime + p.Tq0_prime := by linarith
  unfold eigB eigC
  constructor
  · rintro ⟨hb, _⟩
    nlinarith [hb, hT]
  · intro h
    have hlt : eigYi p g bc * (p.Xd - p.Xd_prime) - 1 < 0 := by linarith
    refine ⟨by nlinarith [hT, hlt], ?_⟩
    nlinarith [pow_two_pos_of_ne_zero (ne_of_lt hlt),
      sq_nonneg (eigYr p g bc * (p.Xd - p.Xd_prime))]

/-- Helper: the self-excitation criterion `Yi·Q < 1` holds exactly when the
operating point lies strictly outside the boundary circle. -/
theorem yiQ_lt_one_iff_outside (p : ParameterSet) (g bc : ℝ)
    (h1 : p.Xd_prime < p.Xd) (h2 : 0 < p.Xd_prime) (h3 : 0 < p.XL)
    (hD0 : 0 < eigDenom p g bc) :
    eigYi p g bc * (p.Xd - p.Xd_prime) < 1 ↔ checkStability p g bc := by
  have hX : 0 < p.XL + p.Xd_prime := by linarith
  have hXd : 0 < p.XL + p.Xd := by linarith
  have hR : 0 < (stabilityCircle p).R := by
    simp only [stabilityCircle]
    exact div_pos (by linarith) (by positivity)
  have key : (g * g + (bc - (stabilityCircle p).Bc_center) ^ 2 -
        (stabilityCircle p).R ^ 2) * ((p.XL + p.Xd_prime) * (p.XL + p.Xd)) =
      eigDenom p g bc -
        (bc - (g * g + bc * bc) * (p.XL + p.Xd_prime)) * (p.Xd - p.Xd_prime) := by
    simp only [stabilityCircle, eigDenom]
    field_simp
    ring
  have hXX : 0 < (p.XL + p.Xd_prime) * (p.XL + p.Xd) := mul_pos hX hXd
  have hyi : eigYi p g bc =
      (bc - (g * g + bc * bc) * (p.XL + p.Xd_prime)) / eigDenom p g bc := rfl
  unfold checkStability
  rw [gt_iff_lt, Real.lt_sqrt hR.le, hyi, div_mul_eq_mul_div, div_lt_one hD0]
  constructor
  · intro h
    nlinarith [key, hXX]
  · intro h
    nlinarith [key, hXX]

/-- C1: for every valid ParameterSet and every operating point whose
eigenvalue denominator is at least `1e-10`, the strict
distance-to-boundary-circle classifier and the eigenvalue solver's stable
flag agree: a point is strictly outside the boundary circle iff the dominant
characteristic root has negative real part. -/
theorem checkStability_iff_eigen_stable (p : ParameterSet) (g bc : ℝ)
    (h1 : p.Xd_prime < p.Xd) (h2 : 0 < p.Xd_prime) (h3 : 0 < p.XL)
    (hT1 : 0 < p.Td0_prime) (hT2 : 0 < p.Tq0_prime)
    (hD : 1e-10 ≤ eigDenom p g bc) :
    checkStability p g bc ↔ (calculateEigenvalues p g bc).stable := by
  have hD0 : 0 < eigDenom p g bc := lt_of_lt_of_le (by norm_num) hD
  rw [eigen_stable_iff_coeff_pos p g bc hT1 hT2 hD,
    coeff_pos_iff_yiQ_lt_one p g bc hT1 hT2,
    yiQ_lt_one_iff_outside p g bc h1 h2 h3 hD0]

/-- Witness for C1 at the default parameters and the default operating point
`(0.1, 0.15)`. -/
theorem checkStability_iff_eigen_stable_witness :
    checkStability defaultParams 0.1 0.15 ↔
      (calculateEigenvalues defaultParams 0.1 0.15).stable :=
  checkStability_iff_eigen_stable defaultParams 0.1 0.15
    (by norm_num [defaultParams]) (by norm_num [defaultParams])
    (by norm_num [defaultParams]) (by norm_num [defaultParams])
    (by norm_num [defaultParams])
    (by unfold eigDenom; norm_num [defaultParams])
